import Mathlib

/-!
Verification development for the evidence-locker backend.

The definitions below are a shallow embedding of the Express request
handlers in backend/server.js (the first, authoritative document), of the
MySQL schema (the CREATE TABLE script with the comments CHECK constraint
and the foreign keys), and of the audit triggers in backend/02_triggers.sql.
Tables are lists of rows; a request handler is a function from a database
state and a request record to a result.  JavaScript truthiness of request
fields (absent, empty or present) is modelled by Option String and the
`truthy` test.  Handlers that mutate state return a `Res`: the post-state
together with the response, so that a mutation that commits before a later
error is representable (the server uses no transactions).
-/

namespace EvidenceLocker

/-- JavaScript truthiness of an optional string request field: an absent
field and the empty string are falsy, any other string is truthy. -/
def truthy : Option String → Bool
  | none => false
  | some s => s != ""

/-- JavaScript `x || d` for an optional string field: the field's value
when truthy, otherwise the default. -/
def oGet (o : Option String) (d : String) : String :=
  if truthy o then o.getD d else d

/-- JavaScript `x || null`: the stored value of a nullable column bound to
an optional request field. -/
def oNull (o : Option String) : Option String :=
  if truthy o then o else none

/-- Insert an element into a list that is sorted by `k` in non-increasing
order, keeping it sorted (the building block of the model of SQL
ORDER BY ... DESC). -/
def insertDescBy (k : α → Nat) (x : α) : List α → List α
  | [] => [x]
  | y :: ys => if k y ≤ k x then x :: y :: ys else y :: insertDescBy k x ys

/-- Sort a list by `k` in non-increasing order; models ORDER BY ... DESC. -/
def sortDescBy (k : α → Nat) : List α → List α
  | [] => []
  | x :: xs => insertDescBy k x (sortDescBy k xs)

/-! Data model: one structure per table of the MySQL schema.  Columns
irrelevant to every claim (file metadata, ip address, colours of tags in
audit payloads, ...) are omitted; all relation columns are kept. -/

/-- Row of the profiles table. -/
structure ProfileRow where
  id : String
  username : String
  email : String
  fullName : String
  role : String
deriving DecidableEq

/-- Row of the cases table. -/
structure CaseRow where
  id : String
  caseNumber : String
  title : String
  description : Option String
  status : String
  priority : String
  createdBy : String
  assignedTo : Option String
  leadInvestigatorId : Option String
  findings : Option String
  dueDate : Option String
  createdAt : Nat
deriving DecidableEq

/-- Row of the evidence table. -/
structure EvidenceRow where
  id : String
  caseId : String
  title : String
  description : Option String
  status : String
  uploadedBy : String
  createdAt : Nat
deriving DecidableEq

/-- Row of the chain_of_custody table. -/
structure CustodyRow where
  id : String
  evidenceId : String
  action : String
  fromUserId : Option String
  toUserId : Option String
  location : String
  notes : Option String
  timestamp : Nat
deriving DecidableEq

/-- Row of the audit_logs table. -/
structure AuditRow where
  id : String
  userId : String
  action : String
  resourceType : String
  resourceId : String
  timestamp : Nat
deriving DecidableEq

/-- Row of the comments table. -/
structure CommentRow where
  id : String
  content : String
  caseId : Option String
  evidenceId : Option String
  createdBy : String
  createdAt : Nat
deriving DecidableEq

/-- Row of the tags table. -/
structure TagRow where
  id : String
  name : String
  color : String
  createdBy : String
deriving DecidableEq

/-- The relational store: one list per table; evidence-tag links are
pairs (evidence id, tag id). -/
structure DB where
  profiles : List ProfileRow
  cases : List CaseRow
  evidence : List EvidenceRow
  custody : List CustodyRow
  auditLogs : List AuditRow
  comments : List CommentRow
  tags : List TagRow
  evidenceTags : List (String × String)
deriving DecidableEq

/-- Result of a state-changing handler: the post-state together with the
response.  On a validation or storage error the response is `.error`; the
post-state still carries any write that committed before the error (the
server uses no transactions). -/
structure Res (α : Type) where
  db : DB
  out : Except String α

/-- True exactly on a success response. -/
def isOkE : Except String α → Bool
  | .ok _ => true
  | .error _ => false

/-- Lookup of a profile row by id, as the handlers' SELECT ... WHERE id. -/
def findProfile (db : DB) (uid : String) : Option ProfileRow :=
  db.profiles.find? (fun p => p.id == uid)

/-- Foreign-key test against the profiles table. -/
def profileExists (db : DB) (uid : String) : Bool :=
  db.profiles.any (fun p => p.id == uid)

/-- Foreign-key test against the cases table. -/
def caseExists (db : DB) (cid : String) : Bool :=
  db.cases.any (fun c => c.id == cid)

/-- Foreign-key test against the evidence table. -/
def evidenceExists (db : DB) (eid : String) : Bool :=
  db.evidence.any (fun e => e.id == eid)

/-- Foreign-key test against the tags table. -/
def tagExists (db : DB) (tid : String) : Bool :=
  db.tags.any (fun t => t.id == tid)

/-- Foreign-key test for a nullable profile reference: NULL passes, a
value must name an existing profile. -/
def optProfileOk (db : DB) (o : Option String) : Bool :=
  match o with
  | some v => profileExists db v
  | none => true

/-! Read endpoints. -/

/-- Visibility filter of the non-admin branch of GET /api/evidence
(server.js 146 to 157): the WHERE clause of the DISTINCT query over
evidence LEFT JOIN chain_of_custody LEFT JOIN cases, which keeps an
evidence row when the caller uploaded it, is the joined case's assignee or
lead investigator, or is the to-user of some custody row of the item.  The
case's creator is not among the disjuncts. -/
def evidenceVisibleRow (db : DB) (uid : String) (e : EvidenceRow) : Bool :=
  e.uploadedBy == uid
  || db.cases.any (fun c =>
        c.id == e.caseId && (c.assignedTo == some uid || c.leadInvestigatorId == some uid))
  || db.custody.any (fun r => r.evidenceId == e.id && r.toUserId == some uid)

/-- GET /api/evidence (server.js 121 to 186): resolve the caller from the
token, 404 when the profile is missing; admins receive every evidence row,
every other role the rows passing `evidenceVisibleRow`; both branches are
ordered by created_at descending. -/
def getEvidence (db : DB) (tok : Option String) : Except String (List EvidenceRow) :=
  match tok with
  | none => .error "No token provided"
  | some uid =>
    match findProfile db uid with
    | none => .error "User not found"
    | some u =>
      if u.role == "admin" then
        .ok (sortDescBy (fun e => e.createdAt) db.evidence)
      else
        .ok (sortDescBy (fun e => e.createdAt) (db.evidence.filter (evidenceVisibleRow db uid)))

/-- Visibility filter of the non-admin branch of GET /api/cases
(server.js 637 to 643): created_by, assigned_to or lead_investigator_id
equals the caller. -/
def caseVisibleRow (uid : String) (c : CaseRow) : Bool :=
  c.createdBy == uid || c.assignedTo == some uid || c.leadInvestigatorId == some uid

/-- GET /api/cases (server.js 615 to 650): resolve the caller from the
token, 404 when the profile is missing; admins receive every case, other
roles the rows passing `caseVisibleRow`; ordered by created_at
descending. -/
def getCases (db : DB) (tok : Option String) : Except String (List CaseRow) :=
  match tok with
  | none => .error "No token provided"
  | some uid =>
    match findProfile db uid with
    | none => .error "User not found"
    | some u =>
      if u.role == "admin" then
        .ok (sortDescBy (fun c => c.createdAt) db.cases)
      else
        .ok (sortDescBy (fun c => c.createdAt) (db.cases.filter (caseVisibleRow uid)))

/-- GET /api/cases/:id (server.js 654 to 681): returns rows[0] or null.
The handler reads no token and consults no principal: whoever asks
receives the stored row. -/
def getCaseById (db : DB) (cid : String) : Option CaseRow :=
  db.cases.find? (fun c => c.id == cid)

/-- GET /api/evidence/:id/custody (server.js 756 to 785): the custody rows
of the evidence item, ORDER BY timestamp DESC.  No token is read. -/
def listCustody (db : DB) (eid : String) : List CustodyRow :=
  sortDescBy (fun r => r.timestamp) (db.custody.filter (fun r => r.evidenceId == eid))

/-- GET /api/audit_logs (server.js 912 to 950): the most recent 100 audit
rows, ORDER BY timestamp DESC LIMIT 100.  The handler reads no token and
applies no per-principal filter. -/
def getAuditLogs (db : DB) : List AuditRow :=
  (sortDescBy (fun a => a.timestamp) db.auditLogs).take 100

/-! Predicates written from the spec's words (sections 4.1 and 8), kept
separate from the handler embeddings so the two can be compared. -/

/-- Spec predicate for case visibility: Admin, creator, assignee or lead
investigator. -/
def canViewCaseSpec (p : ProfileRow) (c : CaseRow) : Bool :=
  p.role == "admin" || p.id == c.createdBy
  || c.assignedTo == some p.id || c.leadInvestigatorId == some p.id

/-- Spec predicate for evidence visibility: visibility of the parent case,
or uploader, or to-principal of some custody entry of the item. -/
def canViewEvidenceSpec (db : DB) (p : ProfileRow) (e : EvidenceRow) : Bool :=
  db.cases.any (fun c => c.id == e.caseId && canViewCaseSpec p c)
  || p.id == e.uploadedBy
  || db.custody.any (fun r => r.evidenceId == e.id && r.toUserId == some p.id)

/-! State-changing endpoints.  Fresh row ids (uuidv4 or the UUID()
trigger) and NOW() timestamps are ambient effects of the runtime, so each
handler takes them as explicit arguments.  Engine-level constraints are
modelled where the handlers or claims depend on them: the UNIQUE indexes
whose ER_DUP_ENTRY the handlers catch, the foreign keys of the custody,
comment, evidence and audit inserts, and the comments XOR CHECK
constraint. -/

/-- Body of POST /api/cases. -/
structure CreateCaseReq where
  caseNumber : Option String
  title : Option String
  description : Option String
  status : Option String
  priority : Option String
  createdBy : Option String

/-- POST /api/cases (server.js 685 to 716): validate case_number, title
and created_by; insert the case with lead NULL, status defaulting to
active and priority to medium; then try a best-effort audit insert whose
failure is caught and swallowed (`auditOk` models whether that separate
insert succeeds), so the handler answers 201 with the case committed
either way. -/
def createCase (db : DB) (req : CreateCaseReq) (newId auditId : String)
    (auditOk : Bool) (now : Nat) : Res CaseRow :=
  if !(truthy req.caseNumber && truthy req.title && truthy req.createdBy) then
    ⟨db, .error "case_number, title and created_by are required"⟩
  else if db.cases.any (fun c => c.caseNumber == oGet req.caseNumber "") then
    ⟨db, .error "Case number already exists"⟩
  else if !profileExists db (oGet req.createdBy "") then
    ⟨db, .error "Failed to create case"⟩
  else
    let newCase : CaseRow :=
      { id := newId, caseNumber := oGet req.caseNumber "", title := oGet req.title "",
        description := oNull req.description, status := oGet req.status "active",
        priority := oGet req.priority "medium", createdBy := oGet req.createdBy "",
        assignedTo := none, leadInvestigatorId := none, findings := none, dueDate := none,
        createdAt := now }
    let db1 := { db with cases := newCase :: db.cases }
    if auditOk then
      ⟨{ db1 with auditLogs :=
          { id := auditId, userId := newCase.createdBy, action := "create",
            resourceType := "case", resourceId := newId, timestamp := now } :: db1.auditLogs },
        .ok newCase⟩
    else
      ⟨db1, .ok newCase⟩

/-- Body of PUT /api/cases/:id.  The outer Option is presence of the field
in the JSON body; the inner Option of the nullable columns is SQL NULL. -/
structure UpdateCaseReq where
  caseNumber : Option String
  title : Option String
  description : Option (Option String)
  status : Option String
  priority : Option String
  assignedTo : Option (Option String)
  findings : Option (Option String)
  dueDate : Option (Option String)

/-- PUT /api/cases/:id, the handler at server.js 241 to 267 — registered
first, so it shadows the later one at 719.  All eight body fields are
bound as SQL parameters, so an absent field (undefined) makes the driver
reject the query; otherwise every column of the matching row is
overwritten.  No audit row is written and affectedRows is not checked. -/
def updateCase (db : DB) (cid : String) (req : UpdateCaseReq) : Res String :=
  match req.caseNumber, req.title, req.description, req.status, req.priority,
      req.assignedTo, req.findings, req.dueDate with
  | some cn, some t, some d, some s, some pr, some asg, some f, some dd =>
      if caseExists db cid && db.cases.any (fun c => !(c.id == cid) && c.caseNumber == cn) then
        ⟨db, .error "Failed to update case"⟩
      else if caseExists db cid &&
          (match asg with | some v => !profileExists db v | none => false) then
        ⟨db, .error "Failed to update case"⟩
      else
        ⟨{ db with cases := db.cases.map (fun c =>
            if c.id == cid then
              { c with
                caseNumber := cn, title := t, description := d, status := s,
                priority := pr, assignedTo := asg, findings := f, dueDate := dd }
            else c) },
          .ok "Case updated successfully"⟩
  | _, _, _, _, _, _, _, _ => ⟨db, .error "Failed to update case"⟩

/-- PUT /api/cases/:id, the handler at server.js 719 to 751 (unreachable,
shadowed by the one above; embedded because the claim cites it): updates
only the provided fields, 400 when none is provided, 404 when no row
matches; no audit row is written. -/
def updateCaseShadowed (db : DB) (cid : String) (req : UpdateCaseReq) : Res String :=
  if !(req.caseNumber.isSome || req.title.isSome || req.description.isSome
      || req.status.isSome || req.priority.isSome || req.assignedTo.isSome
      || req.findings.isSome || req.dueDate.isSome) then
    ⟨db, .error "No fields to update"⟩
  else if caseExists db cid &&
      (match req.caseNumber with
       | some cn => db.cases.any (fun c => !(c.id == cid) && c.caseNumber == cn)
       | none => false) then
    ⟨db, .error "Failed to update case"⟩
  else if caseExists db cid &&
      (match req.assignedTo with | some (some v) => !profileExists db v | _ => false) then
    ⟨db, .error "Failed to update case"⟩
  else if !caseExists db cid then
    ⟨db, .error "Case not found"⟩
  else
    ⟨{ db with cases := db.cases.map (fun c =>
        if c.id == cid then
          { c with
            caseNumber := req.caseNumber.getD c.caseNumber,
            title := req.title.getD c.title,
            description := req.description.getD c.description,
            status := req.status.getD c.status,
            priority := req.priority.getD c.priority,
            assignedTo := req.assignedTo.getD c.assignedTo,
            findings := req.findings.getD c.findings,
            dueDate := req.dueDate.getD c.dueDate }
        else c) },
      .ok "Case updated successfully"⟩

/-- PUT /api/cases/:id/status (server.js 227 to 238): 400 on a falsy
status field, otherwise sets the status of the matching row; no audit
row, no affectedRows check. -/
def updateCaseStatus (db : DB) (cid : String) (st : Option String) : Res String :=
  if !truthy st then ⟨db, .error "Missing status field"⟩
  else
    ⟨{ db with cases := db.cases.map (fun c =>
        if c.id == cid then { c with status := oGet st "" } else c) },
      .ok "Case status updated successfully"⟩

/-- Body of POST /api/evidence. -/
structure EvidenceReq where
  caseId : Option String
  title : Option String
  description : Option String
  uploadedBy : Option String

/-- POST /api/evidence (server.js 285 to 304): validate case_id, title and
uploaded_by; insert the evidence row (status takes the schema default
pending); the AFTER INSERT trigger trg_evidence_audit writes the audit row
in the same statement. -/
def createEvidence (db : DB) (req : EvidenceReq) (newId auditId : String)
    (now : Nat) : Res String :=
  if !(truthy req.caseId && truthy req.title && truthy req.uploadedBy) then
    ⟨db, .error "case_id, title and uploaded_by are required"⟩
  else if !caseExists db (oGet req.caseId "") then
    ⟨db, .error "Failed to add evidence"⟩
  else if !profileExists db (oGet req.uploadedBy "") then
    ⟨db, .error "Failed to add evidence"⟩
  else
    let row : EvidenceRow :=
      { id := newId, caseId := oGet req.caseId "", title := oGet req.title "",
        description := oNull req.description, status := "pending",
        uploadedBy := oGet req.uploadedBy "", createdAt := now }
    let aud : AuditRow :=
      { id := auditId, userId := row.uploadedBy, action := "Uploaded evidence",
        resourceType := "evidence", resourceId := newId, timestamp := now }
    ⟨{ db with evidence := row :: db.evidence, auditLogs := aud :: db.auditLogs },
      .ok "created"⟩

/-- Body of POST /api/evidence/upload (the file metadata that no claim
depends on is omitted). -/
structure UploadReq where
  caseId : Option String
  title : Option String
  description : Option String
  uploadedBy : Option String
  status : Option String

/-- POST /api/evidence/upload (server.js 312 to 370): same validation and
insert as POST /api/evidence, with status defaulting to pending; the
evidence audit trigger fires with the insert. -/
def uploadEvidence (db : DB) (req : UploadReq) (newId auditId : String)
    (now : Nat) : Res String :=
  if !(truthy req.caseId && truthy req.title && truthy req.uploadedBy) then
    ⟨db, .error "case_id, title and uploaded_by are required"⟩
  else if !caseExists db (oGet req.caseId "") then
    ⟨db, .error "Failed to upload evidence"⟩
  else if !profileExists db (oGet req.uploadedBy "") then
    ⟨db, .error "Failed to upload evidence"⟩
  else
    let row : EvidenceRow :=
      { id := newId, caseId := oGet req.caseId "", title := oGet req.title "",
        description := oNull req.description, status := oGet req.status "pending",
        uploadedBy := oGet req.uploadedBy "", createdAt := now }
    let aud : AuditRow :=
      { id := auditId, userId := row.uploadedBy, action := "Uploaded evidence",
        resourceType := "evidence", resourceId := newId, timestamp := now }
    ⟨{ db with evidence := row :: db.evidence, auditLogs := aud :: db.auditLogs },
      .ok "created"⟩

/-- PUT /api/evidence/:id/status (server.js 271 to 282): an absent status
field is an undefined bind parameter and errors; 404 when no row matches;
otherwise the status is overwritten.  No audit row is written. -/
def updateEvidenceStatus (db : DB) (eid : String) (st : Option String) : Res String :=
  match st with
  | none => ⟨db, .error "Failed to update status"⟩
  | some v =>
      if !evidenceExists db eid then ⟨db, .error "Evidence not found"⟩
      else
        ⟨{ db with evidence := db.evidence.map (fun e =>
            if e.id == eid then { e with status := v } else e) },
          .ok "Status updated"⟩

/-- Body of POST /api/chain_of_custody. -/
structure CustodyReq where
  evidenceId : Option String
  action : Option String
  fromUserId : Option String
  toUserId : Option String
  location : Option String
  notes : Option String

/-- POST /api/chain_of_custody (server.js 787 to 804): the handler demands
evidence_id, action, from_user_id and location truthy — to_user_id is
optional and a request carrying only a to-user is rejected; the insert is
then subject to the foreign keys of the chain_of_custody table, and the
AFTER INSERT trigger trg_custody_audit writes the audit row in the same
statement. -/
def postChainOfCustody (db : DB) (req : CustodyReq) (newId auditId : String)
    (now : Nat) : Res String :=
  if !(truthy req.evidenceId && truthy req.action && truthy req.fromUserId
      && truthy req.location) then
    ⟨db, .error "Missing required fields"⟩
  else
    let eid := oGet req.evidenceId ""
    let fromV := oGet req.fromUserId ""
    let toV := oNull req.toUserId
    if !evidenceExists db eid then
      ⟨db, .error "Failed to create custody record"⟩
    else if !profileExists db fromV then
      ⟨db, .error "Failed to create custody record"⟩
    else if !optProfileOk db toV then
      ⟨db, .error "Failed to create custody record"⟩
    else
      let row : CustodyRow :=
        { id := newId, evidenceId := eid, action := oGet req.action "",
          fromUserId := some fromV, toUserId := toV,
          location := oGet req.location "", notes := oNull req.notes, timestamp := now }
      let aud : AuditRow :=
        { id := auditId, userId := (match toV with | some v => v | none => fromV),
          action := "Custody action " ++ row.action,
          resourceType := "chain_of_custody", resourceId := newId, timestamp := now }
      ⟨{ db with custody := row :: db.custody, auditLogs := aud :: db.auditLogs },
        .ok "Custody record created"⟩

/-- Body of POST /api/comments. -/
structure CommentReq where
  content : Option String
  createdBy : Option String
  caseId : Option String
  evidenceId : Option String

/-- The comments_target_check constraint of the comments table: exactly
one of case_id and evidence_id is non-NULL. -/
def commentXOR (c : CommentRow) : Bool :=
  (c.caseId.isSome && c.evidenceId.isNone) || (c.caseId.isNone && c.evidenceId.isSome)

/-- POST /api/comments (server.js 850 to 875): the handler demands
content, created_by and at least one of case_id and evidence_id; the
insert stores `x || null` for each parent column and is subject to the
comments_target_check XOR constraint and the table's foreign keys; the
AFTER INSERT trigger trg_comments_audit writes the audit row in the same
statement. -/
def createComment (db : DB) (req : CommentReq) (newId auditId : String)
    (now : Nat) : Res String :=
  if !(truthy req.content && truthy req.createdBy
      && (truthy req.caseId || truthy req.evidenceId)) then
    ⟨db, .error "content, created_by and either case_id or evidence_id required"⟩
  else
    let row : CommentRow :=
      { id := newId, content := oGet req.content "", caseId := oNull req.caseId,
        evidenceId := oNull req.evidenceId, createdBy := oGet req.createdBy "",
        createdAt := now }
    if !commentXOR row then
      ⟨db, .error "Failed to create comment"⟩
    else if (match row.caseId with | some v => !caseExists db v | none => false) then
      ⟨db, .error "Failed to create comment"⟩
    else if (match row.evidenceId with | some v => !evidenceExists db v | none => false) then
      ⟨db, .error "Failed to create comment"⟩
    else if !profileExists db row.createdBy then
      ⟨db, .error "Failed to create comment"⟩
    else
      let aud : AuditRow :=
        { id := auditId, userId := row.createdBy, action := "Comment added",
          resourceType := (match row.caseId with | some _ => "case" | none => "evidence"),
          resourceId := (match row.caseId with
                         | some v => v
                         | none => (match row.evidenceId with | some v => v | none => "")),
          timestamp := now }
      ⟨{ db with comments := row :: db.comments, auditLogs := aud :: db.auditLogs },
        .ok "created"⟩

/-- DELETE /api/comments/:id (server.js 877 to 887): 404 when no row
matches, otherwise the comment row is removed. -/
def deleteComment (db : DB) (cid : String) : Res String :=
  if db.comments.any (fun c => c.id == cid) then
    ⟨{ db with comments := db.comments.filter (fun c => !(c.id == cid)) },
      .ok "Comment deleted"⟩
  else ⟨db, .error "Comment not found"⟩

/-- Body of POST /api/tags. -/
structure TagReq where
  name : Option String
  color : Option String
  createdBy : Option String

/-- POST /api/tags (server.js 528 to 556): validate name and created_by,
insert the tag (duplicate name is 409), then insert the audit row with no
try/catch around it — when that second insert fails (`auditOk` false) the
error propagates as a 500 while the tag insert stays committed. -/
def createTag (db : DB) (req : TagReq) (newId auditId : String)
    (auditOk : Bool) (now : Nat) : Res String :=
  if !(truthy req.name && truthy req.createdBy) then
    ⟨db, .error "name and created_by required"⟩
  else if db.tags.any (fun t => t.name == oGet req.name "") then
    ⟨db, .error "Tag name already exists"⟩
  else if !profileExists db (oGet req.createdBy "") then
    ⟨db, .error "Failed to create tag"⟩
  else
    let row : TagRow :=
      { id := newId, name := oGet req.name "", color := oGet req.color "#3b82f6",
        createdBy := oGet req.createdBy "" }
    let db1 := { db with tags := row :: db.tags }
    if auditOk then
      ⟨{ db1 with auditLogs :=
          { id := auditId, userId := row.createdBy, action := "create",
            resourceType := "tag", resourceId := newId, timestamp := now } :: db1.auditLogs },
        .ok "created"⟩
    else
      ⟨db1, .error "Failed to create tag"⟩

/-- PUT /api/tags/:id (server.js 558 to 581): 400 when name and color are
both falsy, 409 on a duplicate name, 404 when no row matches, otherwise
the provided fields are overwritten.  No audit row is written. -/
def updateTag (db : DB) (tid : String) (nm cl : Option String) : Res String :=
  if !(truthy nm || truthy cl) then ⟨db, .error "Nothing to update"⟩
  else if tagExists db tid &&
      (match nm with
       | some v => db.tags.any (fun t => !(t.id == tid) && t.name == v)
       | none => false) then
    ⟨db, .error "Tag name already exists"⟩
  else if !tagExists db tid then ⟨db, .error "Tag not found"⟩
  else
    ⟨{ db with tags := db.tags.map (fun t =>
        if t.id == tid then
          { t with name := nm.getD t.name, color := cl.getD t.color }
        else t) },
      .ok "updated"⟩

/-- POST /api/evidence/:id/tags, the app-level handler at server.js 1146
to 1211 (registered before the /api router mount, so it handles the
path): 404 when the evidence or the tag is missing, error on a duplicate
link, then the link is inserted and — when the request carried a decodable
token — an add_tag audit row is written afterwards. -/
def addEvidenceTag (db : DB) (eid tid : String) (tok : Option String)
    (auditId : String) (now : Nat) : Res String :=
  if !evidenceExists db eid then ⟨db, .error "Evidence not found"⟩
  else if !tagExists db tid then ⟨db, .error "Tag not found"⟩
  else if db.evidenceTags.any (fun pr => pr.1 == eid && pr.2 == tid) then
    ⟨db, .error "Failed to add tag"⟩
  else
    let db1 := { db with evidenceTags := (eid, tid) :: db.evidenceTags }
    match tok with
    | none => ⟨db1, .ok "added"⟩
    | some uid =>
        if profileExists db uid then
          ⟨{ db1 with auditLogs :=
              { id := auditId, userId := uid, action := "add_tag",
                resourceType := "evidence", resourceId := eid, timestamp := now }
                :: db1.auditLogs },
            .ok "added"⟩
        else ⟨db1, .error "Failed to add tag"⟩

/-- DELETE /api/evidence/:id/tags/:tagId, the app-level handler at
server.js 1214 to 1275: the link rows are deleted unconditionally (no 404
check), then a remove_tag audit row is written when the token decodes and
both the evidence and the tag exist. -/
def removeEvidenceTag (db : DB) (eid tid : String) (tok : Option String)
    (auditId : String) (now : Nat) : Res String :=
  let db1 := { db with evidenceTags :=
      db.evidenceTags.filter (fun pr => !(pr.1 == eid && pr.2 == tid)) }
  match tok with
  | none => ⟨db1, .ok "Tag removed"⟩
  | some uid =>
      if evidenceExists db eid && tagExists db tid then
        if profileExists db uid then
          ⟨{ db1 with auditLogs :=
              { id := auditId, userId := uid, action := "remove_tag",
                resourceType := "evidence", resourceId := eid, timestamp := now }
                :: db1.auditLogs },
            .ok "Tag removed"⟩
        else ⟨db1, .error "Failed to remove tag"⟩
      else ⟨db1, .ok "Tag removed"⟩

/-- Body of POST /api/audit_logs. -/
structure AuditReq where
  userId : Option String
  action : Option String
  resourceType : Option String
  resourceId : Option String

/-- POST /api/audit_logs (server.js 892 to 907): validate the four
required fields, then insert the audit row (subject to the user_id
foreign key). -/
def postAuditLog (db : DB) (req : AuditReq) (newId : String) (now : Nat) : Res String :=
  if !(truthy req.userId && truthy req.action && truthy req.resourceType
      && truthy req.resourceId) then
    ⟨db, .error "Missing required fields"⟩
  else if !profileExists db (oGet req.userId "") then
    ⟨db, .error "Failed to create audit log"⟩
  else
    ⟨{ db with auditLogs :=
        { id := newId, userId := oGet req.userId "", action := oGet req.action "",
          resourceType := oGet req.resourceType "", resourceId := oGet req.resourceId "",
          timestamp := now } :: db.auditLogs },
      .ok "Audit log created"⟩

/-- Body of POST /api/users.  `auth` is the authorization header: none
when absent; some none when present but carrying no verifiable bearer
token; some (some (i, r)) when its token verifies to the decoded id and
role. -/
structure UserReq where
  email : Option String
  password : Option String
  username : Option String
  fullName : Option String
  role : Option String
  auth : Option (Option (String × String))

/-- Shared insert tail of POST /api/users: duplicate email or username is
409, otherwise the profile row is inserted with the role the caller was
assigned. -/
def insertProfile (db : DB) (req : UserReq) (newId assignedRole : String) : Res String :=
  if db.profiles.any (fun p =>
      p.username == oGet req.username "" || p.email == oGet req.email "") then
    ⟨db, .error "Email or username already exists"⟩
  else
    ⟨{ db with profiles :=
        { id := newId, username := oGet req.username "",
          email := oGet req.email "",
          fullName := oGet req.fullName (oGet req.username ""),
          role := assignedRole } :: db.profiles },
      .ok "User created successfully"⟩

/-- POST /api/users (server.js 387 to 434): validate email, password and
username; when the requested role is admin, demand an authorization
header whose bearer token verifies to an admin, 403 otherwise; the stored
role is admin exactly when the requested role is admin and the
authorization header is present, and analyst in every other case — a
requested investigator or legal role is silently stored as analyst. -/
def createUser (db : DB) (req : UserReq) (newId : String) : Res String :=
  if !(truthy req.email && truthy req.password && truthy req.username) then
    ⟨db, .error "Email, password, and username are required"⟩
  else if req.role == some "admin" then
    match req.auth with
    | none => ⟨db, .error "Only existing admins can create admin accounts"⟩
    | some none => ⟨db, .error "Invalid token"⟩
    | some (some (_, r)) =>
        if !(r == "admin") then
          ⟨db, .error "Only existing admins can create admin accounts"⟩
        else
          insertProfile db req newId
            (if req.role == some "admin" && req.auth.isSome then "admin" else "analyst")
  else
    insertProfile db req newId
      (if req.role == some "admin" && req.auth.isSome then "admin" else "analyst")

/-- Body of the signup endpoints. -/
structure SignupReq where
  email : Option String
  password : Option String
  username : Option String
  role : Option String
  fullName : Option String

/-- POST /api/auth/signup (server.js 981 to 1019): validate email,
password and username; a requested role of admin is refused with 403; the
inserted profile's role is the literal string analyst whatever role was
requested. -/
def signupRouter (db : DB) (req : SignupReq) (newId : String) : Res String :=
  if !(truthy req.email && truthy req.password && truthy req.username) then
    ⟨db, .error "Email, password, and username are required"⟩
  else if req.role == some "admin" then
    ⟨db, .error "Cannot create admin accounts through public signup"⟩
  else if db.profiles.any (fun p =>
      p.username == oGet req.username "" || p.email == oGet req.email "") then
    ⟨db, .error "Email or username already exists"⟩
  else
    ⟨{ db with profiles :=
        { id := newId, username := oGet req.username "",
          email := oGet req.email "",
          fullName := oGet req.fullName (oGet req.username ""),
          role := "analyst" } :: db.profiles },
      .ok "User created successfully"⟩

/-- Top-level POST /auth/signup (server.js 1047 to 1081): the
unauthenticated compatibility route.  Same validation, but no admin check
of any kind: the inserted profile's role is `role || 'analyst'`, i.e.
whatever truthy role string the anonymous caller supplied. -/
def signupTop (db : DB) (req : SignupReq) (newId : String) : Res String :=
  if !(truthy req.email && truthy req.password && truthy req.username) then
    ⟨db, .error "Email, password, and username are required"⟩
  else if db.profiles.any (fun p =>
      p.username == oGet req.username "" || p.email == oGet req.email "") then
    ⟨db, .error "Email or username already exists"⟩
  else
    ⟨{ db with profiles :=
        { id := newId, username := oGet req.username "",
          email := oGet req.email "",
          fullName := oGet req.fullName (oGet req.username ""),
          role := oGet req.role "analyst" } :: db.profiles },
      .ok "User created successfully"⟩

/-- The program's state-changing API surface (every mutating route of the
authoritative server.js, with the ambient ids and timestamps carried as
data). -/
inductive Op where
  | opCreateCase (req : CreateCaseReq) (newId auditId : String) (auditOk : Bool) (now : Nat)
  | opUpdateCase (cid : String) (req : UpdateCaseReq)
  | opUpdateCaseShadowed (cid : String) (req : UpdateCaseReq)
  | opUpdateCaseStatus (cid : String) (st : Option String)
  | opCreateEvidence (req : EvidenceReq) (newId auditId : String) (now : Nat)
  | opUploadEvidence (req : UploadReq) (newId auditId : String) (now : Nat)
  | opUpdateEvidenceStatus (eid : String) (st : Option String)
  | opAppendCustody (req : CustodyReq) (newId auditId : String) (now : Nat)
  | opCreateComment (req : CommentReq) (newId auditId : String) (now : Nat)
  | opDeleteComment (cid : String)
  | opCreateTag (req : TagReq) (newId auditId : String) (auditOk : Bool) (now : Nat)
  | opUpdateTag (tid : String) (nm cl : Option String)
  | opAddEvidenceTag (eid tid : String) (tok : Option String) (auditId : String) (now : Nat)
  | opRemoveEvidenceTag (eid tid : String) (tok : Option String) (auditId : String) (now : Nat)
  | opPostAuditLog (req : AuditReq) (newId : String) (now : Nat)
  | opCreateUser (req : UserReq) (newId : String)
  | opSignupRouter (req : SignupReq) (newId : String)
  | opSignupTop (req : SignupReq) (newId : String)

/-- Post-state of one mutating request (on failure the handlers above
already return the unchanged — or partially committed — state). -/
def step (db : DB) : Op → DB
  | .opCreateCase req nid aid ok now => (createCase db req nid aid ok now).db
  | .opUpdateCase cid req => (updateCase db cid req).db
  | .opUpdateCaseShadowed cid req => (updateCaseShadowed db cid req).db
  | .opUpdateCaseStatus cid st => (updateCaseStatus db cid st).db
  | .opCreateEvidence req nid aid now => (createEvidence db req nid aid now).db
  | .opUploadEvidence req nid aid now => (uploadEvidence db req nid aid now).db
  | .opUpdateEvidenceStatus eid st => (updateEvidenceStatus db eid st).db
  | .opAppendCustody req nid aid now => (postChainOfCustody db req nid aid now).db
  | .opCreateComment req nid aid now => (createComment db req nid aid now).db
  | .opDeleteComment cid => (deleteComment db cid).db
  | .opCreateTag req nid aid ok now => (createTag db req nid aid ok now).db
  | .opUpdateTag tid nm cl => (updateTag db tid nm cl).db
  | .opAddEvidenceTag eid tid tok aid now => (addEvidenceTag db eid tid tok aid now).db
  | .opRemoveEvidenceTag eid tid tok aid now => (removeEvidenceTag db eid tid tok aid now).db
  | .opPostAuditLog req nid now => (postAuditLog db req nid now).db
  | .opCreateUser req nid => (createUser db req nid).db
  | .opSignupRouter req nid => (signupRouter db req nid).db
  | .opSignupTop req nid => (signupTop db req nid).db

/-! Concrete fixtures used by the witness and counterexample theorems. -/

/-- Fixture profile row. -/
def mkProfile (i un em fn r : String) : ProfileRow :=
  { id := i, username := un, email := em, fullName := fn, role := r }

/-- Fixture case row. -/
def mkCase (i num ti cb : String) (asg lead : Option String) (ts : Nat) : CaseRow :=
  { id := i, caseNumber := num, title := ti, description := none, status := "active",
    priority := "medium", createdBy := cb, assignedTo := asg, leadInvestigatorId := lead,
    findings := none, dueDate := none, createdAt := ts }

/-- Fixture evidence row. -/
def mkEvidence (i cid ti ub : String) (ts : Nat) : EvidenceRow :=
  { id := i, caseId := cid, title := ti, description := none, status := "pending",
    uploadedBy := ub, createdAt := ts }

/-- Fixture custody row. -/
def mkCustody (i eid act : String) (fr tu : Option String) (loc : String) (ts : Nat) : CustodyRow :=
  { id := i, evidenceId := eid, action := act, fromUserId := fr, toUserId := tu,
    location := loc, notes := none, timestamp := ts }

/-- Fixture audit row. -/
def mkAudit (i u act rt rid : String) (ts : Nat) : AuditRow :=
  { id := i, userId := u, action := act, resourceType := rt, resourceId := rid, timestamp := ts }

/-- Empty store. -/
def emptyDB : DB :=
  { profiles := [], cases := [], evidence := [], custody := [], auditLogs := [],
    comments := [], tags := [], evidenceTags := [] }

/-- Shared fixture: analyst u1 created case c1 (assigned to investigator
u2), u2 uploaded evidence e1, custody of e1 passed from u2 to legal user
u4, one audit row by u1 and one case comment by u1. -/
def exU1 : ProfileRow := mkProfile "u1" "anna" "anna@agency" "Anna A" "analyst"

/-- Shared fixture: investigator profile. -/
def exU2 : ProfileRow := mkProfile "u2" "iris" "iris@agency" "Iris I" "investigator"

/-- Shared fixture: admin profile. -/
def exU3 : ProfileRow := mkProfile "u3" "adam" "adam@agency" "Adam A" "admin"

/-- Shared fixture: legal profile. -/
def exU4 : ProfileRow := mkProfile "u4" "lena" "lena@agency" "Lena L" "legal"

/-- Shared fixture: case created by u1 and assigned to u2. -/
def exC1 : CaseRow := mkCase "c1" "CASE-1" "Burglary" "u1" (some "u2") none 1

/-- Shared fixture: evidence of c1 uploaded by u2. -/
def exE1 : EvidenceRow := mkEvidence "e1" "c1" "Hard drive" "u2" 2

/-- Shared fixture: custody of e1 transferred from u2 to u4. -/
def exK1 : CustodyRow := mkCustody "k1" "e1" "transferred" (some "u2") (some "u4") "Lab" 3

/-- Shared fixture: audit row recorded by u1. -/
def exA1 : AuditRow := mkAudit "a1" "u1" "create" "case" "c1" 1

/-- Shared fixture: case comment by u1. -/
def exM1 : CommentRow :=
  { id := "m1", content := "hello", caseId := some "c1", evidenceId := none,
    createdBy := "u1", createdAt := 4 }

/-- Shared fixture store. -/
def exDB : DB :=
  { profiles := [exU1, exU2, exU3, exU4], cases := [exC1], evidence := [exE1],
    custody := [exK1], auditLogs := [exA1], comments := [exM1], tags := [],
    evidenceTags := [] }

/-- C1 counterexample fixture: u1 is the creator of c1 but neither
uploader, assignee, lead nor custody recipient of its evidence e1. -/
def db1 : DB :=
  { profiles := [mkProfile "u1" "pat" "pat@agency" "Pat P" "analyst",
                 mkProfile "u2" "kim" "kim@agency" "Kim K" "investigator"],
    cases := [mkCase "c1" "CX-1" "Fraud" "u1" none none 1],
    evidence := [mkEvidence "e1" "c1" "Ledger book" "u2" 2],
    custody := [], auditLogs := [], comments := [], tags := [], evidenceTags := [] }

/-- The analyst profile of `db1`. -/
def db1u1 : ProfileRow := mkProfile "u1" "pat" "pat@agency" "Pat P" "analyst"

/-- The evidence row of `db1`. -/
def db1e1 : EvidenceRow := mkEvidence "e1" "c1" "Ledger book" "u2" 2

/-- C2 counterexample fixture: analyst anna has no relation to case cz. -/
def db2 : DB :=
  { profiles := [mkProfile "w1" "nora" "nora@agency" "Nora N" "analyst",
                 mkProfile "w2" "boss" "boss@agency" "Boss B" "investigator"],
    cases := [mkCase "cz" "CZ-9" "Arson" "w2" none none 1],
    evidence := [], custody := [], auditLogs := [], comments := [], tags := [],
    evidenceTags := [] }

/-- The unrelated analyst profile of `db2`. -/
def db2w1 : ProfileRow := mkProfile "w1" "nora" "nora@agency" "Nora N" "analyst"

/-- The case row of `db2`. -/
def db2cz : CaseRow := mkCase "cz" "CZ-9" "Arson" "w2" none none 1

/-- C4 counterexample fixture: the referenced evidence and the to-user
both exist. -/
def db4 : DB :=
  { profiles := [mkProfile "q1" "omar" "omar@agency" "Omar O" "investigator",
                 mkProfile "q2" "rhea" "rhea@agency" "Rhea R" "legal"],
    cases := [mkCase "c4" "C4-1" "Theft" "q1" none none 1],
    evidence := [mkEvidence "e4" "c4" "Phone" "q1" 2],
    custody := [], auditLogs := [], comments := [], tags := [], evidenceTags := [] }

/-- C4 counterexample request: evidence, action, location and a to-user
are supplied but no from-user. -/
def req4 : CustodyReq :=
  { evidenceId := some "e4", action := some "transferred", fromUserId := none,
    toUserId := some "q2", location := some "Evidence room", notes := none }

/-- C6 counterexample fixture: one audit row recorded by investigator v2;
v1 is an analyst and not the recorder. -/
def db6 : DB :=
  { profiles := [mkProfile "v1" "finn" "finn@agency" "Finn F" "analyst",
                 mkProfile "v2" "gina" "gina@agency" "Gina G" "investigator"],
    cases := [], evidence := [], custody := [],
    auditLogs := [mkAudit "g1" "v2" "update" "case" "c9" 9],
    comments := [], tags := [], evidenceTags := [] }

/-- The audit row of `db6`. -/
def db6a : AuditRow := mkAudit "g1" "v2" "update" "case" "c9" 9

/-- The analyst profile of `db6`. -/
def db6v1 : ProfileRow := mkProfile "v1" "finn" "finn@agency" "Finn F" "analyst"

/-- C7 counterexample fixture: analyst lee has no relation to case c7. -/
def db7 : DB :=
  { profiles := [mkProfile "x1" "lee" "lee@agency" "Lee L" "analyst",
                 mkProfile "x2" "mora" "mora@agency" "Mora M" "investigator"],
    cases := [mkCase "c7" "C7-7" "Smuggling" "x2" none none 1],
    evidence := [], custody := [], auditLogs := [], comments := [], tags := [],
    evidenceTags := [] }

/-- The unrelated analyst profile of `db7`. -/
def db7x1 : ProfileRow := mkProfile "x1" "lee" "lee@agency" "Lee L" "analyst"

/-- The case row of `db7`. -/
def db7c7 : CaseRow := mkCase "c7" "C7-7" "Smuggling" "x2" none none 1

/-- C3 fixture: investigator u1 owns case c1. -/
def db3 : DB :=
  { profiles := [mkProfile "u1" "ivo" "ivo@agency" "Ivo I" "investigator"],
    cases := [mkCase "c1" "CASE-1" "Old title" "u1" none none 1],
    evidence := [], custody := [], auditLogs := [mkAudit "a0" "u1" "create" "case" "c1" 1],
    comments := [], tags := [], evidenceTags := [] }

/-- C3 fixture: a valid create-case body. -/
def req3new : CreateCaseReq :=
  { caseNumber := some "CASE-2", title := some "New case", description := none,
    status := none, priority := none, createdBy := some "u1" }

/-- C3 fixture: a full update body for the reachable PUT /api/cases/:id. -/
def req3upd : UpdateCaseReq :=
  { caseNumber := some "CASE-1", title := some "Renamed", description := some none,
    status := some "active", priority := some "high", assignedTo := some none,
    findings := some none, dueDate := some none }

/-- C8 witness request: a case comment. -/
def creq8 : CommentReq :=
  { content := some "note", createdBy := some "u1", caseId := some "c1",
    evidenceId := none }

/-- C9 witness request: an unauthenticated signup body asking for the
admin role. -/
def req9 : SignupReq :=
  { email := some "mal@outside", password := some "pw", username := some "mal",
    role := some "admin", fullName := none }

/-- C10 witness request: an admin-authorized creation of an admin user. -/
def req10 : UserReq :=
  { email := some "new@agency", password := some "pw", username := some "newbie",
    fullName := none, role := some "admin", auth := some (some ("root", "admin")) }

/-! Helper lemmas about the sort, lookup and step functions, shared by the
claim theorems below. -/

theorem mem_insertDescBy (k : α → Nat) (x a : α) (l : List α) :
    a ∈ insertDescBy k x l ↔ a = x ∨ a ∈ l := by
  induction l with
  | nil => simp [insertDescBy]
  | cons y ys ih =>
      by_cases h : k y ≤ k x
      · simp [insertDescBy, h]
      · simp only [insertDescBy, h, if_false, List.mem_cons, ih]
        tauto

theorem mem_sortDescBy (k : α → Nat) (a : α) (l : List α) :
    a ∈ sortDescBy k l ↔ a ∈ l := by
  induction l with
  | nil => simp [sortDescBy]
  | cons x xs ih => simp [sortDescBy, mem_insertDescBy, ih]

theorem pairwise_insertDescBy (k : α → Nat) (x : α) (l : List α)
    (h : l.Pairwise (fun a b => k b ≤ k a)) :
    (insertDescBy k x l).Pairwise (fun a b => k b ≤ k a) := by
  induction l with
  | nil => simp [insertDescBy]
  | cons y ys ih =>
      rcases List.pairwise_cons.mp h with ⟨hy, hys⟩
      by_cases hk : k y ≤ k x
      · rw [insertDescBy, if_pos hk]
        refine List.pairwise_cons.mpr ⟨?_, h⟩
        intro b hb
        rcases List.mem_cons.mp hb with hb | hb
        · exact hb ▸ hk
        · exact Nat.le_trans (hy b hb) hk
      · rw [insertDescBy, if_neg hk]
        refine List.pairwise_cons.mpr ⟨?_, ih hys⟩
        intro b hb
        rcases (mem_insertDescBy k x b ys).mp hb with hb | hb
        · exact hb ▸ Nat.le_of_lt (Nat.lt_of_not_le hk)
        · exact hy b hb

theorem pairwise_sortDescBy (k : α → Nat) (l : List α) :
    (sortDescBy k l).Pairwise (fun a b => k b ≤ k a) := by
  induction l with
  | nil => simp [sortDescBy]
  | cons x xs ih => exact pairwise_insertDescBy k x _ ih

theorem length_insertDescBy (k : α → Nat) (x : α) (l : List α) :
    (insertDescBy k x l).length = l.length + 1 := by
  induction l with
  | nil => rfl
  | cons y ys ih =>
      by_cases h : k y ≤ k x
      · simp [insertDescBy, h]
      · simp [insertDescBy, h, ih]

theorem length_sortDescBy (k : α → Nat) (l : List α) :
    (sortDescBy k l).length = l.length := by
  induction l with
  | nil => rfl
  | cons x xs ih => simp [sortDescBy, length_insertDescBy, ih]

/-- In a list whose keys are pairwise distinct, `find?` with an element's
key returns exactly that element. -/
theorem find_eq_of_nodup_key (key : α → String) (l : List α)
    (h : (l.map key).Nodup) (a : α) (ha : a ∈ l) :
    l.find? (fun x => key x == key a) = some a := by
  induction l with
  | nil => cases ha
  | cons y ys ih =>
      rcases List.mem_cons.mp ha with rfl | ha
      · simp [List.find?]
      · have hkey : key y ≠ key a := by
          intro hcontra
          have : key a ∈ ys.map key := List.mem_map_of_mem key ha
          rw [← hcontra] at this
          exact (List.nodup_cons.mp (by simpa using h)).1 this
        have hbeq : (key y == key a) = false := by
          simpa using hkey
        simp only [List.find?, hbeq]
        exact ih (by simpa using (List.nodup_cons.mp (by simpa using h)).2) ha

/-- No state-changing operation of the program removes or replaces an
existing chain-of-custody row: every custody row of the pre-state is
still present, unchanged, in the post-state of any operation. -/
theorem custody_step_mono (db : DB) (op : Op) :
    ∀ r ∈ db.custody, r ∈ (step db op).custody := by
  intro r hr
  cases op <;>
    simp only [step, createCase, updateCase, updateCaseShadowed, updateCaseStatus,
      createEvidence, uploadEvidence, updateEvidenceStatus, postChainOfCustody,
      createComment, deleteComment, createTag, updateTag, addEvidenceTag,
      removeEvidenceTag, postAuditLog, createUser, insertProfile, signupRouter,
      signupTop] <;>
    (repeat' split) <;>
    first
      | exact hr
      | exact List.mem_cons_of_mem _ hr

/-- Every comment of the post-state of any operation was either already in
the pre-state or satisfies the XOR target constraint (the only insert path
is guarded by the comments_target_check). -/
theorem comments_step_mem (db : DB) (op : Op) :
    ∀ c ∈ (step db op).comments, c ∈ db.comments ∨ commentXOR c = true := by
  intro c hc
  cases op <;>
    revert hc <;>
    simp only [step, createCase, updateCase, updateCaseShadowed, updateCaseStatus,
      createEvidence, uploadEvidence, updateEvidenceStatus, postChainOfCustody,
      createComment, deleteComment, createTag, updateTag, addEvidenceTag,
      removeEvidenceTag, postAuditLog, createUser, insertProfile, signupRouter,
      signupTop] <;>
    (repeat' split) <;>
    intro hc <;>
    first
      | exact Or.inl hc
      | exact Or.inl (List.mem_of_mem_filter hc)
      | (rcases List.mem_cons.mp hc with rfl | h2
         · right; simp_all
         · exact Or.inl h2)

/-! Claim theorems. -/

/-- C5: for every evidence item, listCustody returns exactly its
chain-of-custody rows in non-increasing (newest-first) timestamp order,
and no operation of the program updates or deletes an existing
chain-of-custody row — the ledger is append-only. -/
theorem C5_custody_ledger (db : DB) (eid : String) :
    ((listCustody db eid).Pairwise (fun a b => b.timestamp ≤ a.timestamp)
      ∧ (∀ r : CustodyRow, r ∈ listCustody db eid ↔ r ∈ db.custody ∧ r.evidenceId = eid))
    ∧ (∀ op : Op, ∀ r ∈ db.custody, r ∈ (step db op).custody) := by
  refine ⟨⟨pairwise_sortDescBy _ _, ?_⟩, fun op => custody_step_mono db op⟩
  intro r
  simp [listCustody, mem_sortDescBy, List.mem_filter]

/-- Witness for C5 at the shared fixture: the pre-existing custody row k1
survives an update-case-status operation, and the listing of e1 is sorted
newest first. -/
theorem C5_witness :
    exK1 ∈ (step exDB (Op.opUpdateCaseStatus "c1" (some "closed"))).custody
    ∧ (listCustody exDB "e1").Pairwise (fun a b => b.timestamp ≤ a.timestamp) :=
  ⟨(C5_custody_ledger exDB "e1").2 (Op.opUpdateCaseStatus "c1" (some "closed")) exK1
      (by decide),
    (C5_custody_ledger exDB "e1").1.1⟩

/-- C8: every comment accepted by the comment-creation operation — and,
inductively, every comment in the store after any operation — references
exactly one of a case and an evidence item, never both and never
neither. -/
theorem C8_comment_xor (db : DB)
    (h : ∀ c ∈ db.comments, commentXOR c = true) (op : Op) :
    ∀ c ∈ (step db op).comments, commentXOR c = true := by
  intro c hc
  rcases comments_step_mem db op c hc with hmem | hxor
  · exact h c hmem
  · exact hxor

/-- Witness for C8 at the shared fixture: the invariant holds before and
after a comment creation. -/
theorem C8_witness :
    (∀ c ∈ exDB.comments, commentXOR c = true)
    ∧ (∀ c ∈ (step exDB (Op.opCreateComment creq8 "m2" "a8" 9)).comments,
        commentXOR c = true) :=
  ⟨by decide, C8_comment_xor exDB (by decide) (Op.opCreateComment creq8 "m2" "a8" 9)⟩

/-- C7 amended: GET /api/cases/:id performs no authorization at all — it
returns the stored case row to whoever asks (in particular to an Analyst
with no relation to the case), instead of answering Forbidden with zero
rows. -/
theorem C7_amended_case_detail (db : DB) (c : CaseRow)
    (hn : (db.cases.map (fun x => x.id)).Nodup) (hc : c ∈ db.cases) :
    getCaseById db c.id = some c := by
  unfold getCaseById
  exact find_eq_of_nodup_key (fun x => x.id) db.cases hn c hc

/-- Counterexample for C7 as stated: analyst x1 has no relation to case
c7, yet the case-detail read path hands the full row back with success —
no Forbidden, not zero rows. -/
theorem C7_counterexample :
    getCaseById db7 "c7" = some db7c7
    ∧ db7x1 ∈ db7.profiles ∧ db7x1.role = "analyst"
    ∧ db7c7 ∈ db7.cases
    ∧ canViewCaseSpec db7x1 db7c7 = false := by
  exact ⟨rfl, by decide, rfl, by decide, rfl⟩

/-- Witness for C7 at the shared fixture. -/
theorem C7_witness :
    (exDB.cases.map (fun x => x.id)).Nodup ∧ exC1 ∈ exDB.cases
    ∧ getCaseById exDB "c1" = some exC1 :=
  ⟨by decide, by decide, C7_amended_case_detail exDB exC1 (by decide) (by decide)⟩

/-- C6 amended: the backend audit-log read applies no per-principal
filter: whenever the log holds at most the 100-row page, every audit row
— whoever recorded it — is part of the response that any caller receives.
The own-or-admin restriction exists only in the storage-layer row policy,
not in this read path. -/
theorem C6_amended_audit_read (db : DB) (a : AuditRow)
    (hlen : db.auditLogs.length ≤ 100) (ha : a ∈ db.auditLogs) :
    a ∈ getAuditLogs db := by
  unfold getAuditLogs
  rw [List.take_of_length_le (by rw [length_sortDescBy]; exact hlen)]
  exact (mem_sortDescBy _ a _).mpr ha

/-- Counterexample for C6 as stated: the audit row recorded by
investigator v2 is in the response although the requester can be the
analyst v1, who is neither the recording principal nor an Admin — the
handler never even learns who asks. -/
theorem C6_counterexample :
    getAuditLogs db6 = [db6a]
    ∧ db6a.userId = "v2"
    ∧ db6v1 ∈ db6.profiles ∧ db6v1.role = "analyst"
    ∧ (db6a.userId == db6v1.id) = false := by
  exact ⟨rfl, rfl, by decide, rfl, rfl⟩

/-- Witness for C6 at the shared fixture. -/
theorem C6_witness :
    exDB.auditLogs.length ≤ 100 ∧ exA1 ∈ exDB.auditLogs
    ∧ exA1 ∈ getAuditLogs exDB :=
  ⟨by decide, by decide, C6_amended_audit_read exDB exA1 (by decide) (by decide)⟩

/-- C2 amended: the GET /api/cases listing returns a case to a principal
exactly when the principal is an admin or is the case's creator, assignee
or lead investigator.  (The biconditional holds for this listing path
only: the detail path GET /api/cases/:id answers any principal, see the
counterexample.) -/
theorem C2_corrected_cases_listing (db : DB) (uid : String) (u : ProfileRow)
    (c : CaseRow) (l : List CaseRow)
    (hu : findProfile db uid = some u) (hl : getCases db (some uid) = .ok l) :
    c ∈ l ↔ c ∈ db.cases ∧
      (u.role = "admin" ∨ c.createdBy = uid ∨ c.assignedTo = some uid
        ∨ c.leadInvestigatorId = some uid) := by
  unfold getCases at hl
  simp only [hu] at hl
  by_cases hrole : u.role = "admin"
  · rw [if_pos (by simp [hrole])] at hl
    injection hl with hl
    subst hl
    simp [mem_sortDescBy, hrole]
  · rw [if_neg (by simpa using hrole)] at hl
    injection hl with hl
    subst hl
    simp only [mem_sortDescBy, List.mem_filter, caseVisibleRow, Bool.or_eq_true,
      beq_iff_eq, hrole, false_or, or_assoc]

/-- Counterexample for C2 as stated: analyst w1 is neither Admin nor
creator, assignee or lead of case cz, yet a case read path — the
unauthenticated detail endpoint — returns the full row for cz rather than
zero rows. -/
theorem C2_counterexample :
    getCaseById db2 "cz" = some db2cz
    ∧ db2w1 ∈ db2.profiles ∧ db2w1.role = "analyst"
    ∧ db2cz ∈ db2.cases
    ∧ canViewCaseSpec db2w1 db2cz = false := by
  exact ⟨rfl, by decide, rfl, by decide, rfl⟩

/-- Witness for C2 at the shared fixture: for creator u1 the listing
biconditional is discharged concretely. -/
theorem C2_witness :
    findProfile exDB "u1" = some exU1
    ∧ getCases exDB (some "u1") = Except.ok [exC1]
    ∧ exC1 ∈ [exC1] :=
  ⟨rfl, rfl,
    (C2_corrected_cases_listing exDB "u1" exU1 exC1 [exC1] rfl rfl).mpr
      ⟨by decide, Or.inr (Or.inl rfl)⟩⟩

/-- C1 amended: the GET /api/evidence listing returns an evidence item to
a principal exactly when the principal is an admin, the uploader, the
assignee or lead investigator of the item's case, or the to-principal of
some custody row of the item.  Relative to the claim, the disjunct for the
case's creator is missing: creating a case does not by itself make its
evidence visible here. -/
theorem C1_corrected_evidence_listing (db : DB) (uid : String) (u : ProfileRow)
    (e : EvidenceRow) (l : List EvidenceRow)
    (hu : findProfile db uid = some u) (hl : getEvidence db (some uid) = .ok l) :
    e ∈ l ↔ e ∈ db.evidence ∧
      (u.role = "admin" ∨ e.uploadedBy = uid
        ∨ (∃ c ∈ db.cases, c.id = e.caseId
            ∧ (c.assignedTo = some uid ∨ c.leadInvestigatorId = some uid))
        ∨ (∃ r ∈ db.custody, r.evidenceId = e.id ∧ r.toUserId = some uid)) := by
  unfold getEvidence at hl
  simp only [hu] at hl
  by_cases hrole : u.role = "admin"
  · rw [if_pos (by simp [hrole])] at hl
    injection hl with hl
    subst hl
    simp [mem_sortDescBy, hrole]
  · rw [if_neg (by simpa using hrole)] at hl
    injection hl with hl
    subst hl
    simp only [mem_sortDescBy, List.mem_filter, evidenceVisibleRow, Bool.or_eq_true,
      Bool.and_eq_true, List.any_eq_true, beq_iff_eq, hrole, false_or, or_assoc]

/-- Counterexample for C1 as stated: analyst u1 created case c1, so the
claimed rule grants visibility of its evidence e1, but the evidence
listing for u1 is empty — the handler's filter has no creator disjunct. -/
theorem C1_counterexample :
    getEvidence db1 (some "u1") = Except.ok []
    ∧ db1u1 ∈ db1.profiles
    ∧ db1e1 ∈ db1.evidence
    ∧ canViewEvidenceSpec db1 db1u1 db1e1 = true := by
  exact ⟨rfl, by decide, by decide, rfl⟩

/-- Witness for C1 at the shared fixture: uploader u2 sees e1 in the
listing. -/
theorem C1_witness :
    findProfile exDB "u2" = some exU2
    ∧ getEvidence exDB (some "u2") = Except.ok [exE1]
    ∧ exE1 ∈ [exE1] :=
  ⟨rfl, rfl,
    (C1_corrected_evidence_listing exDB "u2" exU2 exE1 [exE1] rfl rfl).mpr
      ⟨by decide, Or.inr (Or.inl rfl)⟩⟩

/-- C3: the code contradicts the audit atomicity the spec demands.
Evaluated concretely: a create-case whose separate audit insert fails is
still committed and reported as a success with the audit trail unchanged
(the catch swallows the failure), and a successful case update — through
the reachable PUT /api/cases/:id handler as well as through the shadowed
one the claim cites — appends no audit row at all. -/
theorem C3_code_bug_eval :
    (isOkE (createCase db3 req3new "c2" "a2" false 5).out = true
      ∧ caseExists (createCase db3 req3new "c2" "a2" false 5).db "c2" = true
      ∧ (createCase db3 req3new "c2" "a2" false 5).db.auditLogs = db3.auditLogs)
    ∧ (isOkE (updateCase db3 "c1" req3upd).out = true
      ∧ (updateCase db3 "c1" req3upd).db.cases.any
          (fun c => c.id == "c1" && c.title == "Renamed") = true
      ∧ (updateCase db3 "c1" req3upd).db.auditLogs = db3.auditLogs)
    ∧ (isOkE (updateCaseShadowed db3 "c1" req3upd).out = true
      ∧ (updateCaseShadowed db3 "c1" req3upd).db.auditLogs = db3.auditLogs) :=
  ⟨⟨rfl, rfl, rfl⟩, ⟨rfl, rfl, rfl⟩, rfl, rfl⟩

/-- C4 amended: appendCustody succeeds exactly when evidenceId, action,
fromPrincipal and a non-empty location are all supplied and the inserted
row satisfies the table's foreign keys (the evidence and the from-user
exist, and the to-user, when truthy, exists).  toPrincipal alone does not
satisfy the handler: fromPrincipal is mandatory, and the handler itself
performs no evidence-existence check — only the foreign key does. -/
theorem C4_amended_appendCustody (db : DB) (req : CustodyReq)
    (newId auditId : String) (now : Nat) :
    isOkE (postChainOfCustody db req newId auditId now).out
      = (truthy req.evidenceId && truthy req.action && truthy req.fromUserId
          && truthy req.location
          && evidenceExists db (oGet req.evidenceId "")
          && profileExists db (oGet req.fromUserId "")
          && optProfileOk db (oNull req.toUserId)) := by
  cases h1 : truthy req.evidenceId <;>
  cases h2 : truthy req.action <;>
  cases h3 : truthy req.fromUserId <;>
  cases h4 : truthy req.location <;>
  cases h5 : evidenceExists db (oGet req.evidenceId "") <;>
  cases h6 : profileExists db (oGet req.fromUserId "") <;>
  cases h7 : optProfileOk db (oNull req.toUserId) <;>
  simp_all [postChainOfCustody, isOkE]

/-- Counterexample for C4 as stated: a request carrying evidenceId,
action, a non-empty location and a toPrincipal — with the evidence and
the to-user both existing — is rejected as Missing required fields
because no fromPrincipal is supplied, although the claim says such a
request is accepted. -/
theorem C4_counterexample :
    (postChainOfCustody db4 req4 "k9" "a9" 7).out = Except.error "Missing required fields"
    ∧ (postChainOfCustody db4 req4 "k9" "a9" 7).db = db4
    ∧ truthy req4.evidenceId = true ∧ truthy req4.action = true
    ∧ truthy req4.location = true
    ∧ evidenceExists db4 "e4" = true
    ∧ req4.toUserId = some "q2" ∧ profileExists db4 "q2" = true
    ∧ req4.fromUserId = none :=
  ⟨rfl, rfl, rfl, rfl, rfl, rfl, rfl, rfl, rfl⟩

/-- C9: the unauthenticated top-level /auth/signup stores whatever truthy
role the caller supplies (defaulting to analyst), with no admin gate —
so an anonymous admin-role signup mints an admin profile — while the
/api/auth/signup variant refuses a requested admin role with an error and
otherwise always stores analyst. -/
theorem C9_signup_roles (db : DB) (req : SignupReq) (newId : String) :
    (isOkE (signupTop db req newId).out = true →
      ∃ p : ProfileRow, (signupTop db req newId).db.profiles = p :: db.profiles
        ∧ p.role = oGet req.role "analyst")
    ∧ (req.role = some "admin" →
        isOkE (signupRouter db req newId).out = false
          ∧ (signupRouter db req newId).db = db)
    ∧ (isOkE (signupRouter db req newId).out = true →
      ∃ p : ProfileRow, (signupRouter db req newId).db.profiles = p :: db.profiles
        ∧ p.role = "analyst") := by
  refine ⟨?_, ?_, ?_⟩
  · intro hok
    unfold signupTop at hok ⊢
    split at hok
    · simp [isOkE] at hok
    · rename_i h1
      split at hok
      · simp [isOkE] at hok
      · rename_i h2
        rw [if_neg h1, if_neg h2]
        exact ⟨_, rfl, rfl⟩
  · intro hadm
    cases h1 : (truthy req.email && truthy req.password && truthy req.username) <;>
      simp [signupRouter, h1, hadm, isOkE]
  · intro hok
    unfold signupRouter at hok ⊢
    split at hok
    · simp [isOkE] at hok
    · rename_i h1
      split at hok
      · simp [isOkE] at hok
      · rename_i hadm
        split at hok
        · simp [isOkE] at hok
        · rename_i h2
          rw [if_neg h1, if_neg hadm, if_neg h2]
          exact ⟨_, rfl, rfl⟩

/-- Witness for C9: the concrete anonymous signup with role admin
succeeds on the empty store and the stored profile's role is admin. -/
theorem C9_witness :
    isOkE (signupTop emptyDB req9 "u9").out = true
    ∧ ∃ p : ProfileRow, (signupTop emptyDB req9 "u9").db.profiles = p :: emptyDB.profiles
        ∧ p.role = "admin" :=
  ⟨rfl, by
    obtain ⟨p, hp, hrole⟩ := (C9_signup_roles emptyDB req9 "u9").1 rfl
    exact ⟨p, hp, by simpa [req9, oGet, truthy] using hrole⟩⟩

/-- A successful insertProfile prepends exactly the literal profile row
with the assigned role. -/
theorem insertProfile_ok (db : DB) (req : UserReq) (newId roleV : String)
    (hok : isOkE (insertProfile db req newId roleV).out = true) :
    (insertProfile db req newId roleV).db.profiles =
      ({ id := newId, username := oGet req.username "",
         email := oGet req.email "",
         fullName := oGet req.fullName (oGet req.username ""),
         role := roleV } : ProfileRow) :: db.profiles := by
  unfold insertProfile at hok ⊢
  split at hok
  · simp [isOkE] at hok
  · rename_i h2
    rw [if_neg h2]

/-- A successful createUser reduces to insertProfile with the computed
assigned role, and an admin request can only have succeeded with a
verified admin token. -/
theorem createUser_ok_eq (db : DB) (req : UserReq) (newId : String)
    (hok : isOkE (createUser db req newId).out = true) :
    createUser db req newId
        = insertProfile db req newId
            (if req.role == some "admin" && req.auth.isSome then "admin" else "analyst")
      ∧ (req.role = some "admin" → ∃ i, req.auth = some (some (i, "admin"))) := by
  unfold createUser at hok ⊢
  split at hok
  · simp [isOkE] at hok
  · rename_i h1
    split at hok
    · rename_i hadm
      split at hok
      · simp [isOkE] at hok
      · simp [isOkE] at hok
      · rename_i i r heq
        split at hok
        · simp [isOkE] at hok
        · rename_i hr
          have hradm : r = "admin" := by
            have := hr
            simp only [Bool.not_eq_true', Bool.not_eq_false] at this
            exact by simpa using this
          constructor
          · rw [if_neg h1, if_pos hadm, heq]
            rw [if_neg hr]
          · intro _
            exact ⟨i, by rw [heq, hradm]⟩
    · rename_i hadm
      constructor
      · rw [if_neg h1, if_neg hadm]
      · intro hcontra
        exact absurd (by simp [hcontra]) hadm

/-- C10: every profile stored through POST /api/users has role admin or
analyst; it is admin only when the request asked for admin and carried an
authorization header whose token verifies to an admin; a requested
investigator or legal role is silently stored as analyst. -/
theorem C10_createUser_roles (db : DB) (req : UserReq) (newId : String)
    (hok : isOkE (createUser db req newId).out = true) :
    ∃ p : ProfileRow, (createUser db req newId).db.profiles = p :: db.profiles
      ∧ (p.role = "admin" ∨ p.role = "analyst")
      ∧ (p.role = "admin" → req.role = some "admin"
          ∧ ∃ i, req.auth = some (some (i, "admin")))
      ∧ ((req.role = some "investigator" ∨ req.role = some "legal") →
          p.role = "analyst") := by
  obtain ⟨heq, hadmtok⟩ := createUser_ok_eq db req newId hok
  rw [heq] at hok ⊢
  refine ⟨_, insertProfile_ok db req newId _ hok, ?_, ?_, ?_⟩
  · cases hcond : (req.role == some "admin" && req.auth.isSome) <;> simp [hcond]
  · intro hrole
    cases hcond : (req.role == some "admin" && req.auth.isSome) with
    | false => simp [hcond] at hrole
    | true =>
      have hreq : req.role = some "admin" := by
        have := (Bool.and_eq_true _ _).mp hcond
        simpa using this.1
      exact ⟨hreq, hadmtok hreq⟩
  · intro hil
    have hcond : (req.role == some "admin" && req.auth.isSome) = false := by
      rcases hil with h | h <;> simp [h]
    simp [hcond]

/-- Witness for C10: the concrete admin-authorized request stores a
profile whose role is admin or analyst. -/
theorem C10_witness :
    isOkE (createUser emptyDB req10 "u10").out = true
    ∧ ∃ p : ProfileRow, (createUser emptyDB req10 "u10").db.profiles = p :: emptyDB.profiles
        ∧ (p.role = "admin" ∨ p.role = "analyst") :=
  ⟨rfl, by
    obtain ⟨p, hp, hr, _, _⟩ := C10_createUser_roles emptyDB req10 "u10" rfl
    exact ⟨p, hp, hr⟩⟩

end EvidenceLocker
